import Mathlib

/-!
Shallow embedding of `glider`'s Raspberry Pi GPIO board
(`src/glider/hal/boards/pi_gpio_board.py`) and of the video frame writer
(`src/glider/vision/frame_writer.py`), with theorems settling the frozen
claims about the HAL specification.

Backend effects (pigpio daemon RPCs, gpiozero device operations) are
modelled as an explicit trace of `BackendCall`s; board methods are pure
functions from a `BoardState` to a trace paired with an `Except` result.
Failure injection for best-effort paths is a predicate on backend calls.
-/

namespace Glider

/-- Pin types, mirroring `glider.hal.base_board.PinType` (the base module is
not part of the analysed sources; the enumeration is the one the spec's data
model lists: digital, analog, PWM, servo, I2C, SPI). -/
inductive PinType
  | DIGITAL
  | ANALOG
  | PWM
  | SERVO
  | I2C
  | SPI
deriving DecidableEq, Repr

/-- Pin modes, mirroring `PinMode` (output / input / input-pull-up /
input-pull-down, as the spec's data model lists). -/
inductive PinMode
  | OUTPUT
  | INPUT
  | INPUT_PULLUP
  | INPUT_PULLDOWN
deriving DecidableEq, Repr

/-- Connection states, mirroring `BoardConnectionState`. -/
inductive BoardConnectionState
  | DISCONNECTED
  | CONNECTING
  | CONNECTED
  | ERROR
deriving DecidableEq, Repr

/-- `PinCapability(pin, types, max_value, description)` from the base module,
as instantiated by the `RPI_GPIO_PINS` table. -/
structure PinCapability where
  pin : Nat
  types : List PinType
  max_value : Option Nat := none
  description : String := ""
deriving DecidableEq, Repr

open PinType in
/-- The `RPI_GPIO_PINS` capability table of `pi_gpio_board.py` (BCM
numbering), verbatim. -/
def RPI_GPIO_PINS : List (Nat × PinCapability) :=
  [ (2, ⟨2, [DIGITAL, I2C], none, "GPIO2 (SDA)"⟩),
    (3, ⟨3, [DIGITAL, I2C], none, "GPIO3 (SCL)"⟩),
    (4, ⟨4, [DIGITAL], none, "GPIO4"⟩),
    (5, ⟨5, [DIGITAL], none, "GPIO5"⟩),
    (6, ⟨6, [DIGITAL], none, "GPIO6"⟩),
    (7, ⟨7, [DIGITAL, SPI], none, "GPIO7 (CE1)"⟩),
    (8, ⟨8, [DIGITAL, SPI], none, "GPIO8 (CE0)"⟩),
    (9, ⟨9, [DIGITAL, SPI], none, "GPIO9 (MISO)"⟩),
    (10, ⟨10, [DIGITAL, SPI], none, "GPIO10 (MOSI)"⟩),
    (11, ⟨11, [DIGITAL, SPI], none, "GPIO11 (SCLK)"⟩),
    (12, ⟨12, [DIGITAL, PWM], some 100, "GPIO12 (PWM0)"⟩),
    (13, ⟨13, [DIGITAL, PWM], some 100, "GPIO13 (PWM1)"⟩),
    (14, ⟨14, [DIGITAL], none, "GPIO14 (TXD)"⟩),
    (15, ⟨15, [DIGITAL], none, "GPIO15 (RXD)"⟩),
    (16, ⟨16, [DIGITAL], none, "GPIO16"⟩),
    (17, ⟨17, [DIGITAL], none, "GPIO17"⟩),
    (18, ⟨18, [DIGITAL, PWM], some 100, "GPIO18 (PWM0)"⟩),
    (19, ⟨19, [DIGITAL, PWM], some 100, "GPIO19 (PWM1)"⟩),
    (20, ⟨20, [DIGITAL], none, "GPIO20"⟩),
    (21, ⟨21, [DIGITAL], none, "GPIO21"⟩),
    (22, ⟨22, [DIGITAL], none, "GPIO22"⟩),
    (23, ⟨23, [DIGITAL], none, "GPIO23"⟩),
    (24, ⟨24, [DIGITAL], none, "GPIO24"⟩),
    (25, ⟨25, [DIGITAL], none, "GPIO25"⟩),
    (26, ⟨26, [DIGITAL], none, "GPIO26"⟩),
    (27, ⟨27, [DIGITAL], none, "GPIO27"⟩) ]

/-- gpiozero device instances stored in `self._devices`, by constructor:
`DigitalOutputDevice`, `DigitalInputDevice(pull_up=...)`, `PWMOutputDevice`,
`Servo`. -/
inductive Device
  | digitalOutput
  | digitalInput (pull_up : Bool)
  | pwmOutput
  | servo
deriving DecidableEq, Repr

/-- Pull resistor configuration passed to pigpio `set_pull_up_down`. -/
inductive Pud
  | off
  | up
  | down
deriving DecidableEq, Repr

/-- One observable backend effect: a pigpio daemon RPC or a gpiozero device
operation.  `pigpioSetMode pin out` is `pi.set_mode(pin, OUTPUT/INPUT)` with
`out = true` for OUTPUT; `deviceSetValue` is `setattr(device, "value", v)`. -/
inductive BackendCall
  | pigpioSetMode (pin : Nat) (out : Bool)
  | pigpioSetPullUpDown (pin : Nat) (pud : Pud)
  | pigpioCallbackStart (pin : Nat)
  | pigpioCallbackCancel (pin : Nat)
  | pigpioWrite (pin : Nat) (level : Nat)
  | pigpioSetPWMDutycycle (pin : Nat) (duty : Int)
  | pigpioSetServoPulsewidth (pin : Nat) (pw : Nat)
  | pigpioRead (pin : Nat)
  | pigpioStop
  | gpiozeroConstruct (pin : Nat) (dev : Device)
  | gpiozeroClose (pin : Nat)
  | deviceOn (pin : Nat)
  | deviceOff (pin : Nat)
  | deviceSetValue (pin : Nat) (v : ℚ)
  | deviceReadValue (pin : Nat)
deriving DecidableEq, Repr

/-- Values mirrored into `self._pin_values`: booleans from digital I/O,
integers from analog/servo writes. -/
inductive PinValue
  | b (v : Bool)
  | i (v : Int)
deriving DecidableEq, Repr

/-- Errors raised by the board methods.  `notConnected` is the
`RuntimeError("Board not connected")` guard; `notConfigured pin` is the
`ValueError(f"Pin ... not configured")` of the gpiozero branches;
`noGpioLib` is `RuntimeError("No GPIO library available")`. -/
inductive GpioError
  | notConnected
  | notConfigured (pin : Nat)
  | noGpioLib
deriving DecidableEq, Repr

/-- The mutable state of a `PiGPIOBoard` instance: the constructor fields of
`PiGPIOBoard.__init__` plus the connection state and id held by the base
class.  `hasPigpioPi` models `self._pigpio_pi is not None`;
`pigpioCallbackPins` models the key set of `self._pigpio_callbacks`. -/
structure BoardState where
  connState : BoardConnectionState
  port : Option String
  auto_reconnect : Bool
  reconnectActive : Bool
  pigpioAvailable : Bool
  hasPigpioPi : Bool
  gpiozeroAvailable : Bool
  lgpioAvailable : Bool
  devices : List (Nat × Device)
  pinModes : List (Nat × PinMode)
  pinTypes : List (Nat × PinType)
  pinValues : List (Nat × PinValue)
  pigpioCallbackPins : List Nat
  id : String
deriving DecidableEq, Repr

/-- Dictionary insertion for the `self._devices` / `self._pin_*` mappings:
replace the binding of `k` in place, or append it. -/
def alSet {α : Type} : List (Nat × α) → Nat → α → List (Nat × α)
  | [], k, v => [(k, v)]
  | (k2, v2) :: t, k, v =>
      if k2 = k then (k, v) :: t else (k2, v2) :: alSet t k v

/-- Modelled from the spec: `BaseBoard.is_connected` is not among the
analysed sources; per the spec's state machine ("No read/write is serviced
while `state != CONNECTED`") it holds exactly in the `CONNECTED` state. -/
def is_connected (st : BoardState) : Bool :=
  st.connState = BoardConnectionState.CONNECTED

/-- `_setup_pigpio_input_callback`: cancel any existing callback handle on
the pin, then install a new one.  Returns the calls issued and the updated
key set of `self._pigpio_callbacks`. -/
def setupPigpioInputCallback (cbPins : List Nat) (pin : Nat) :
    List BackendCall × List Nat :=
  let cancel := if pin ∈ cbPins then [BackendCall.pigpioCallbackCancel pin] else []
  (cancel ++ [.pigpioCallbackStart pin],
   if pin ∈ cbPins then cbPins else pin :: cbPins)

/-- `_set_pin_mode_pigpio`: the pigpio RPCs issued for one configuration
request, plus the updated callback key set.  Pin types other than
DIGITAL/PWM/SERVO match no branch of the Python `if`/`elif` chain and issue
nothing. -/
def set_pin_mode_pigpio (cbPins : List Nat) (pin : Nat) (mode : PinMode)
    (pin_type : PinType) : List BackendCall × List Nat :=
  match pin_type with
  | .DIGITAL =>
      match mode with
      | .OUTPUT => ([.pigpioSetMode pin true], cbPins)
      | .INPUT =>
          let (cb, cbPins2) := setupPigpioInputCallback cbPins pin
          ([.pigpioSetMode pin false, .pigpioSetPullUpDown pin .off] ++ cb, cbPins2)
      | .INPUT_PULLUP =>
          let (cb, cbPins2) := setupPigpioInputCallback cbPins pin
          ([.pigpioSetMode pin false, .pigpioSetPullUpDown pin .up] ++ cb, cbPins2)
      | .INPUT_PULLDOWN =>
          let (cb, cbPins2) := setupPigpioInputCallback cbPins pin
          ([.pigpioSetMode pin false, .pigpioSetPullUpDown pin .down] ++ cb, cbPins2)
  | .PWM => ([.pigpioSetMode pin true], cbPins)
  | .SERVO => ([.pigpioSetMode pin true], cbPins)
  | _ => ([], cbPins)

/-- The gpiozero device `_set_pin_mode_gpiozero` constructs for one request,
if any (type/mode pairs outside the `if`/`elif` chain construct none). -/
def gpiozeroDeviceFor (mode : PinMode) (pin_type : PinType) : Option Device :=
  match pin_type with
  | .DIGITAL =>
      match mode with
      | .OUTPUT => some .digitalOutput
      | .INPUT => some (.digitalInput false)
      | .INPUT_PULLUP => some (.digitalInput true)
      | .INPUT_PULLDOWN => some (.digitalInput false)
  | .PWM => some .pwmOutput
  | .SERVO => some .servo
  | _ => none

/-- `PiGPIOBoard.set_pin_mode`: guard on `is_connected`, dispatch to the
pigpio or gpiozero helper, then record the mode and type in
`self._pin_modes` / `self._pin_types`.  Note: the `RPI_GPIO_PINS`
capability table is never consulted here. -/
def set_pin_mode (st : BoardState) (pin : Nat) (mode : PinMode)
    (pin_type : PinType) : List BackendCall × Except GpioError BoardState :=
  if !(is_connected st) then
    ([], .error .notConnected)
  else if st.pigpioAvailable && st.hasPigpioPi then
    let (calls, cbPins) := set_pin_mode_pigpio st.pigpioCallbackPins pin mode pin_type
    (calls,
     .ok { st with
             pigpioCallbackPins := cbPins
             pinModes := alSet st.pinModes pin mode
             pinTypes := alSet st.pinTypes pin pin_type })
  else if st.gpiozeroAvailable then
    let closeCalls :=
      match st.devices.lookup pin with
      | some _ => [BackendCall.gpiozeroClose pin]
      | none => []
    match gpiozeroDeviceFor mode pin_type with
    | some dev =>
        (closeCalls ++ [.gpiozeroConstruct pin dev],
         .ok { st with
                 devices := alSet st.devices pin dev
                 pinModes := alSet st.pinModes pin mode
                 pinTypes := alSet st.pinTypes pin pin_type })
    | none =>
        (closeCalls,
         .ok { st with
                 pinModes := alSet st.pinModes pin mode
                 pinTypes := alSet st.pinTypes pin pin_type })
  else
    ([], .error .noGpioLib)

/-- `PiGPIOBoard.write_digital`: guard on `is_connected`; on the pigpio
branch issue `pi.write(pin, int(value))` with no configuration check; on the
gpiozero branch require a device for the pin and call `on`/`off`; finally
mirror the value into `self._pin_values`. -/
def write_digital (st : BoardState) (pin : Nat) (value : Bool) :
    List BackendCall × Except GpioError BoardState :=
  if !(is_connected st) then
    ([], .error .notConnected)
  else if st.pigpioAvailable && st.hasPigpioPi then
    ([.pigpioWrite pin (if value then 1 else 0)],
     .ok { st with pinValues := alSet st.pinValues pin (.b value) })
  else
    match st.devices.lookup pin with
    | none => ([], .error (.notConfigured pin))
    | some _ =>
        ([if value then .deviceOn pin else .deviceOff pin],
         .ok { st with pinValues := alSet st.pinValues pin (.b value) })

/-- `PiGPIOBoard.read_digital`: guard on `is_connected`; read the level from
the backend (the hardware level is passed in as `hwLevel`), mirror it and
return it. -/
def read_digital (st : BoardState) (pin : Nat) (hwLevel : Bool) :
    List BackendCall × Except GpioError (BoardState × Bool) :=
  if !(is_connected st) then
    ([], .error .notConnected)
  else if st.pigpioAvailable && st.hasPigpioPi then
    ([.pigpioRead pin],
     .ok ({ st with pinValues := alSet st.pinValues pin (.b hwLevel) }, hwLevel))
  else
    match st.devices.lookup pin with
    | none => ([], .error (.notConfigured pin))
    | some _ =>
        ([.deviceReadValue pin],
         .ok ({ st with pinValues := alSet st.pinValues pin (.b hwLevel) }, hwLevel))

/-- The clamp `value = max(0, min(255, value))` of `write_analog`. -/
def clamp255 (v : Int) : Int := max 0 (min 255 v)

/-- `PiGPIOBoard.write_analog`: guard on `is_connected`; clamp to 0-255; on
the pigpio branch the duty cycle is the clamped value itself (0-255 native);
on the gpiozero branch it is `value / 255.0` (exact here: the claims only
evaluate it at points where the float division is exact or compared as a
rational). -/
def write_analog (st : BoardState) (pin : Nat) (value : Int) :
    List BackendCall × Except GpioError BoardState :=
  if !(is_connected st) then
    ([], .error .notConnected)
  else
    let v := clamp255 value
    if st.pigpioAvailable && st.hasPigpioPi then
      ([.pigpioSetPWMDutycycle pin v],
       .ok { st with pinValues := alSet st.pinValues pin (.i v) })
    else
      match st.devices.lookup pin with
      | none => ([], .error (.notConfigured pin))
      | some _ =>
          ([.deviceSetValue pin ((v : ℚ) / 255)],
           .ok { st with pinValues := alSet st.pinValues pin (.i v) })

/-- The clamp `angle = max(0, min(180, angle))` of `write_servo`. -/
def clampAngle (a : Int) : Int := max 0 (min 180 a)

/-- The pigpio pulse-width mapping of `write_servo`:
`500 + int((angle / 180.0) * 2000)` for the already-clamped angle.
Modelled with exact (floor) arithmetic on naturals; at every angle the
claims evaluate (0, 90, 180) the Python float computation is exact and
agrees with this. -/
def servo_pulsewidth (a : Int) : Nat := 500 + (clampAngle a).toNat * 2000 / 180

/-- The gpiozero mapping of `write_servo`:
`(angle / 90.0) - 1.0`, then clamped to [-1, 1], for the already-clamped
angle.  Modelled over ℚ (exact at the claims' evaluation points). -/
def servo_value (a : Int) : ℚ :=
  max (-1) (min 1 (((clampAngle a : ℤ) : ℚ) / 90 - 1))

/-- `PiGPIOBoard.write_servo`: guard on `is_connected`; clamp the angle to
0-180; pigpio branch issues `set_servo_pulsewidth` with the 500-2500 µs
mapping, gpiozero branch requires a device and sets its `value` to the
±1.0-range mapping; the clamped angle is mirrored. -/
def write_servo (st : BoardState) (pin : Nat) (angle : Int) :
    List BackendCall × Except GpioError BoardState :=
  if !(is_connected st) then
    ([], .error .notConnected)
  else
    let a := clampAngle angle
    if st.pigpioAvailable && st.hasPigpioPi then
      ([.pigpioSetServoPulsewidth pin (servo_pulsewidth angle)],
       .ok { st with pinValues := alSet st.pinValues pin (.i a) })
    else
      match st.devices.lookup pin with
      | none => ([], .error (.notConfigured pin))
      | some _ =>
          ([.deviceSetValue pin (servo_value angle)],
           .ok { st with pinValues := alSet st.pinValues pin (.i a) })

section EmergencyStop

/-- Whether a gpiozero device has an `off()` method (`hasattr(device,
"off")`): in gpiozero, `DigitalOutputDevice` and `PWMOutputDevice` are
`OutputDevice` subclasses exposing `off()`; `DigitalInputDevice` and `Servo`
are not. -/
def hasOff : Device → Bool
  | .digitalOutput => true
  | .pwmOutput => true
  | _ => false

/-- Whether a gpiozero device has a `value` attribute (`hasattr(device,
"value")`): all four device classes expose `value`. -/
def hasValueAttr : Device → Bool
  | _ => true

/-- The single reset call `emergency_stop` issues for one pin on the pigpio
branch: PWM type → zero duty cycle, SERVO type → zero pulse width, otherwise
only OUTPUT-mode pins get `write(pin, 0)`; any other assigned pin (e.g. a
digital input) gets no call. -/
def pigpioEStopCall (st : BoardState) (pin : Nat) : Option BackendCall :=
  match st.pinTypes.lookup pin with
  | some .PWM => some (.pigpioSetPWMDutycycle pin 0)
  | some .SERVO => some (.pigpioSetServoPulsewidth pin 0)
  | _ =>
      if st.pinModes.lookup pin = some .OUTPUT then
        some (.pigpioWrite pin 0)
      else
        none

/-- The single reset call `emergency_stop` issues for one device on the
gpiozero branch: `off()` if present, else `setattr(device, "value", 0)`. -/
def gpiozeroEStopCall (pin : Nat) (d : Device) : Option BackendCall :=
  if hasOff d then some (.deviceOff pin)
  else if hasValueAttr d then some (.deviceSetValue pin 0)
  else none

/-- One guarded per-pin attempt of `emergency_stop` / `disconnect`: the
backend call is issued (so it appears in the trace) and, when the injected
failure predicate says it raises, the exception is caught and logged —
it never alters control flow or state. -/
def guardedAttempt (fails : BackendCall → Bool) : Option BackendCall → List BackendCall
  | none => []
  | some c =>
      -- try: issue the call; except Exception: logger.error(...) — swallowed
      if fails c then [c] else [c]

/-- `PiGPIOBoard.emergency_stop` under an injected per-call failure pattern:
iterate all assigned pins (pigpio branch: keys of `self._pin_modes`;
gpiozero branch: `self._devices`), attempting each pin's reset inside its
own `try`/`except`.  The function is total and returns only the trace:
no per-pin error propagates and the state is not modified. -/
def emergency_stop (st : BoardState) (fails : BackendCall → Bool) :
    List BackendCall :=
  if st.pigpioAvailable && st.hasPigpioPi then
    (st.pinModes.map Prod.fst).flatMap
      (fun pin => guardedAttempt fails (pigpioEStopCall st pin))
  else
    st.devices.flatMap
      (fun pd => guardedAttempt fails (gpiozeroEStopCall pd.1 pd.2))

end EmergencyStop

section ConnectDisconnect

/-- Environment of one `connect()` attempt: which imports succeed, whether
the remote `pigpio.pi(port)` handle reports `connected`, and whether some
unexpected exception fires inside the outer `try` (caught by the final
`except Exception`). -/
structure ConnectEnv where
  pigpioImportOk : Bool
  pigpioConnected : Bool
  gpiozeroImportOk : Bool
  lgpioImportOk : Bool
  unexpectedRaise : Bool
deriving DecidableEq, Repr

/-- `PiGPIOBoard.connect`: set CONNECTING; with a port, import pigpio and
open the daemon handle (failure of either → ERROR, `False`); without a
port, probe gpiozero then lgpio (neither → ERROR, `False`); success →
CONNECTED, `True`.  Any unexpected exception is caught by the outer
`except`, which sets ERROR, notifies, and returns `False`. -/
def connect (st : BoardState) (env : ConnectEnv) : Bool × BoardState :=
  if env.unexpectedRaise then
    (false, { st with connState := .ERROR })
  else
    let st1 := { st with connState := .CONNECTING }
    match st1.port with
    | some _ =>
        if env.pigpioImportOk then
          if env.pigpioConnected then
            (true,
             { st1 with
                 hasPigpioPi := true
                 pigpioAvailable := true
                 connState := .CONNECTED })
          else
            (false, { st1 with hasPigpioPi := false, connState := .ERROR })
        else
          (false, { st1 with connState := .ERROR })
    | none =>
        let st2 := { st1 with gpiozeroAvailable := env.gpiozeroImportOk }
        let st3 :=
          if st2.gpiozeroAvailable then st2
          else { st2 with lgpioAvailable := env.lgpioImportOk }
        if st3.gpiozeroAvailable || st3.lgpioAvailable then
          (true, { st3 with connState := .CONNECTED })
        else
          (false, { st3 with connState := .ERROR })

/-- The reset call `disconnect` issues for one pin on the pigpio branch:
unlike `emergency_stop`, every assigned pin gets one (PWM → zero duty,
SERVO → zero pulse width, anything else → `write(pin, 0)`). -/
def disconnectResetCall (st : BoardState) (pin : Nat) : BackendCall :=
  match st.pinTypes.lookup pin with
  | some .PWM => .pigpioSetPWMDutycycle pin 0
  | some .SERVO => .pigpioSetServoPulsewidth pin 0
  | _ => .pigpioWrite pin 0

/-- `PiGPIOBoard.disconnect` under an injected per-call failure pattern:
stop the reconnect loop; pigpio branch cancels every callback, resets every
assigned pin to a safe value and stops the daemon handle, each step inside
its own `try`/`except`; gpiozero branch closes every device likewise; then
all bookkeeping is cleared and the state is set to DISCONNECTED
unconditionally.  (`stop_reconnect` lives in the base module, not among the
analysed sources; modelled from the spec: it cancels the reconnect loop and
raises nothing.) -/
def disconnect (st : BoardState) (fails : BackendCall → Bool) :
    List BackendCall × BoardState :=
  let st1 := { st with reconnectActive := false }
  if st1.pigpioAvailable && st1.hasPigpioPi then
    let cancelCalls :=
      st1.pigpioCallbackPins.flatMap
        (fun pin => guardedAttempt fails (some (.pigpioCallbackCancel pin)))
    let resetCalls :=
      (st1.pinModes.map Prod.fst).flatMap
        (fun pin => guardedAttempt fails (some (disconnectResetCall st1 pin)))
    let stopCalls := guardedAttempt fails (some .pigpioStop)
    (cancelCalls ++ resetCalls ++ stopCalls,
     { st1 with
         pigpioCallbackPins := []
         hasPigpioPi := false
         pigpioAvailable := false
         devices := []
         pinModes := []
         pinTypes := []
         pinValues := []
         connState := .DISCONNECTED })
  else
    let closeCalls :=
      st1.devices.flatMap
        (fun pd => guardedAttempt fails (some (.gpiozeroClose pd.1)))
    (closeCalls,
     { st1 with
         devices := []
         pinModes := []
         pinTypes := []
         pinValues := []
         connState := .DISCONNECTED })

end ConnectDisconnect

section Serialization

/-- The dictionary produced by `PiGPIOBoard.to_dict` (and consumed by
`from_dict`, where any key may be absent — hence `Option` fields). -/
structure BoardDict where
  id : Option String
  name : Option String
  port : Option String
  auto_reconnect : Option Bool
  board_type : Option String
deriving DecidableEq, Repr

/-- `PiGPIOBoard.to_dict`: serialize id, name, port, auto_reconnect and the
literal board type discriminator `"raspberry_pi"`. -/
def to_dict (st : BoardState) : BoardDict :=
  { id := some st.id
    name := some "Raspberry Pi GPIO"
    port := st.port
    auto_reconnect := some st.auto_reconnect
    board_type := some "raspberry_pi" }

/-- The state `PiGPIOBoard.__init__` builds: disconnected, no backend
available, empty bookkeeping.  The fresh `_id` is assigned by the base
class constructor (not among the analysed sources; modelled from the spec's
persisted-configuration record as a generated identifier, passed in
here). -/
def initBoard (port : Option String) (auto_reconnect : Bool)
    (freshId : String) : BoardState :=
  { connState := .DISCONNECTED
    port := port
    auto_reconnect := auto_reconnect
    reconnectActive := false
    pigpioAvailable := false
    hasPigpioPi := false
    gpiozeroAvailable := false
    lgpioAvailable := false
    devices := []
    pinModes := []
    pinTypes := []
    pinValues := []
    pigpioCallbackPins := []
    id := freshId }

/-- `PiGPIOBoard.from_dict`: construct with `data.get("port")` and
`data.get("auto_reconnect", True)`, then overwrite `_id` with
`data.get("id", instance._id)`. -/
def from_dict (data : BoardDict) (freshId : String) : BoardState :=
  let inst := initBoard data.port (data.auto_reconnect.getD true) freshId
  { inst with id := data.id.getD inst.id }

end Serialization

section FrameWriter

/-- The observable state of a `FrameWriterThread`: the buffered queue
(frames as opaque numbers), `maxsize`, and the two counters guarded by
`self._lock`. -/
structure FWState where
  queue : List Nat
  max_queue_size : Nat
  frames_written : Nat
  frames_dropped : Nat
deriving DecidableEq, Repr

/-- `FrameWriterThread.enqueue`: `put_nowait` succeeds unless the queue is
bounded (`maxsize > 0`) and full, in which case `queue.Full` is caught, the
dropped counter is incremented and `False` is returned. -/
def fwEnqueue (st : FWState) (f : Nat) : Bool × FWState :=
  if 0 < st.max_queue_size ∧ st.max_queue_size ≤ st.queue.length then
    (false, { st with frames_dropped := st.frames_dropped + 1 })
  else
    (true, { st with queue := st.queue ++ [f] })

/-- One iteration of `FrameWriterThread._run` that obtained a frame from
the queue: `self._writer.write(frame)` either succeeds (counter
incremented under the lock) or raises (`failWrite`), in which case the
exception is logged and swallowed — the frame is gone and no counter
changes.  A `queue.Empty` timeout iteration changes nothing. -/
def fwProcessOne (st : FWState) (failWrite : Bool) : FWState :=
  match st.queue with
  | [] => st
  | _ :: rest =>
      if failWrite then
        { st with queue := rest }
      else
        { st with queue := rest, frames_written := st.frames_written + 1 }

/-- One interleaved event of a `FrameWriterThread` run: a producer
`enqueue` call, or the writer thread consuming one frame (with an injected
write failure flag). -/
inductive FWOp
  | enq (f : Nat)
  | proc (failWrite : Bool)
deriving DecidableEq, Repr

/-- Run a `FrameWriterThread` through a sequence of interleaved events. -/
def fwRun (st : FWState) : List FWOp → FWState
  | [] => st
  | .enq f :: rest => fwRun (fwEnqueue st f).2 rest
  | .proc b :: rest => fwRun (fwProcessOne st b) rest

/-- The number of `enqueue` calls in an event sequence. -/
def fwEnqCount : List FWOp → Nat
  | [] => 0
  | .enq _ :: rest => fwEnqCount rest + 1
  | .proc _ :: rest => fwEnqCount rest

/-- Ghost accounting: the number of frames that were dequeued by the writer
loop but whose `write` raised (these are lost without touching either
counter). -/
def fwLostCount (st : FWState) : List FWOp → Nat
  | [] => 0
  | .enq f :: rest => fwLostCount (fwEnqueue st f).2 rest
  | .proc b :: rest =>
      (if b ∧ st.queue ≠ [] then 1 else 0) + fwLostCount (fwProcessOne st b) rest

end FrameWriter

section ExampleStates

/-- Decidable success test for `Except` results. -/
def isOkB {ε α : Type} : Except ε α → Bool
  | .ok _ => true
  | .error _ => false

/-- A connected remote (pigpio) board with no pin configured. -/
def exRemote : BoardState :=
  { initBoard (some "192.168.1.100") true "board-1" with
      connState := .CONNECTED
      pigpioAvailable := true
      hasPigpioPi := true }

/-- A connected remote board whose only assignment is pin 4 as a digital
input. -/
def exRemoteInput : BoardState :=
  { exRemote with
      pinModes := [(4, .INPUT)]
      pinTypes := [(4, .DIGITAL)] }

/-- A connected remote board with pin 18 assigned as a PWM output. -/
def exRemotePwm : BoardState :=
  { exRemote with
      pinModes := [(18, .OUTPUT)]
      pinTypes := [(18, .PWM)] }

/-- A connected local (gpiozero) board with pin 13 a digital output, pin 18
a PWM output and pin 12 a servo. -/
def exLocal : BoardState :=
  { initBoard none true "board-2" with
      connState := .CONNECTED
      gpiozeroAvailable := true
      devices := [(13, .digitalOutput), (18, .pwmOutput), (12, .servo)]
      pinModes := [(13, .OUTPUT), (18, .OUTPUT), (12, .OUTPUT)]
      pinTypes := [(13, .DIGITAL), (18, .PWM), (12, .SERVO)] }

/-- A connected local board with no pin configured. -/
def exLocalEmpty : BoardState :=
  { initBoard none true "board-3" with
      connState := .CONNECTED
      gpiozeroAvailable := true }

/-- A freshly constructed (disconnected) remote board. -/
def exDisconnected : BoardState := initBoard (some "raspberrypi.local") true "board-4"

/-- A fresh frame writer with a bounded queue of 10. -/
def fwInit : FWState :=
  { queue := [], max_queue_size := 10, frames_written := 0, frames_dropped := 0 }

end ExampleStates

/-! ## Helper lemmas -/

theorem lookup_alSet {α : Type} (l : List (Nat × α)) (k : Nat) (v : α) :
    (alSet l k v).lookup k = some v := by
  induction l with
  | nil => simp [alSet, List.lookup]
  | cons h t ih =>
      obtain ⟨k2, v2⟩ := h
      by_cases hk : k2 = k
      · simp [alSet, hk, List.lookup]
      · simp only [alSet, if_neg hk, List.lookup]
        have : (k == k2) = false := by
          simp [Ne.symm hk]
        simp [this, ih]

theorem guardedAttempt_eq (fails : BackendCall → Bool) (oc : Option BackendCall) :
    guardedAttempt fails oc = oc.toList := by
  cases oc <;> simp [guardedAttempt, Option.toList]

/-! ## C1: capability checking in `set_pin_mode` -/

/-- C1, counterexample: pin 99 is outside the `RPI_GPIO_PINS` capability
table, yet on a connected remote board `set_pin_mode` succeeds and issues
the backend `set_mode` call for it — there is no capability check, contrary
to the claim that such pins fail with an Unsupported/capability-mismatch
error and never reach the backend. -/
theorem C1_counterexample :
    RPI_GPIO_PINS.lookup 99 = none ∧
    (set_pin_mode exRemote 99 PinMode.OUTPUT PinType.DIGITAL).1 =
      [BackendCall.pigpioSetMode 99 true] ∧
    isOkB (set_pin_mode exRemote 99 PinMode.OUTPUT PinType.DIGITAL).2 = true := by
  decide

/-- C1, amended: `set_pin_mode` performs no capability check against
`RPI_GPIO_PINS`.  For every pin id whatsoever (inside or outside the
table), on a connected board with the pigpio backend and a
digital/PWM/servo pin type, `set_pin_mode` issues the backend `set_mode`
call for that pin and succeeds, recording the assignment. -/
theorem C1_no_capability_check (st : BoardState) (pin : Nat) (mode : PinMode)
    (pin_type : PinType)
    (hconn : is_connected st = true)
    (hpa : st.pigpioAvailable = true) (hpi : st.hasPigpioPi = true)
    (ht : pin_type = PinType.DIGITAL ∨ pin_type = PinType.PWM ∨
          pin_type = PinType.SERVO) :
    (∃ b rest, (set_pin_mode st pin mode pin_type).1 =
        BackendCall.pigpioSetMode pin b :: rest) ∧
    ∃ st', (set_pin_mode st pin mode pin_type).2 = .ok st' ∧
      st'.pinModes.lookup pin = some mode := by
  have hcond : (st.pigpioAvailable && st.hasPigpioPi) = true := by
    simp [hpa, hpi]
  rcases ht with h | h | h <;> subst h <;>
    cases mode <;>
      simp [set_pin_mode, hconn, hcond, set_pin_mode_pigpio,
            setupPigpioInputCallback, lookup_alSet]

/-- C1 witness: the amended theorem applied at pin 99 (outside the table)
on the concrete connected remote board. -/
theorem C1_witness :
    (∃ b rest, (set_pin_mode exRemote 99 PinMode.OUTPUT PinType.PWM).1 =
        BackendCall.pigpioSetMode 99 b :: rest) ∧
    ∃ st', (set_pin_mode exRemote 99 PinMode.OUTPUT PinType.PWM).2 = .ok st' ∧
      st'.pinModes.lookup 99 = some PinMode.OUTPUT :=
  C1_no_capability_check exRemote 99 PinMode.OUTPUT PinType.PWM
    (by decide) (by decide) (by decide) (Or.inr (Or.inl rfl))

/-! ## C2: best-effort emergency stop -/

/-- C2, counterexample: on a connected remote board whose only assignment is
pin 4 as a digital input, `emergency_stop` issues no backend call at all —
the pin is assigned but gets no safe-value reset attempt, contrary to the
claim that every assigned pin is attempted (the pigpio branch only resets
PWM-, SERVO- and OUTPUT-configured pins). -/
theorem C2_counterexample :
    (4, PinMode.INPUT) ∈ exRemoteInput.pinModes ∧
    emergency_stop exRemoteInput (fun _ => false) = [] := by
  constructor
  · decide
  · rfl

/-- C2, amended: `emergency_stop` never propagates a per-pin error and its
attempts are wholly independent of which backend calls fail (best-effort,
not first-failure-abort); every assigned pin whose configuration calls for
a reset (pigpio branch: PWM, SERVO or OUTPUT mode; gpiozero branch: every
pin with a device) is attempted under every failure pattern.  Pins assigned
as inputs on the pigpio branch are skipped. -/
theorem C2_emergency_stop_best_effort (st : BoardState)
    (fails : BackendCall → Bool) :
    emergency_stop st fails = emergency_stop st (fun _ => false) ∧
    (∀ pin mode, (pin, mode) ∈ st.pinModes →
      st.pigpioAvailable = true → st.hasPigpioPi = true →
      ∀ c, pigpioEStopCall st pin = some c → c ∈ emergency_stop st fails) ∧
    (∀ pin d, (pin, d) ∈ st.devices →
      (st.pigpioAvailable && st.hasPigpioPi) = false →
      ∀ c, gpiozeroEStopCall pin d = some c → c ∈ emergency_stop st fails) := by
  refine ⟨?_, ?_, ?_⟩
  · simp [emergency_stop, guardedAttempt_eq]
  · intro pin mode hmem hpa hpi c hc
    have hcond : (st.pigpioAvailable && st.hasPigpioPi) = true := by
      simp [hpa, hpi]
    simp only [emergency_stop, hcond, if_true, guardedAttempt_eq]
    rw [List.mem_flatMap]
    exact ⟨pin, List.mem_map_of_mem Prod.fst hmem, by simp [hc, Option.toList]⟩
  · intro pin d hmem hcond c hc
    simp only [emergency_stop, hcond, guardedAttempt_eq, Bool.false_eq_true,
      if_false]
    rw [List.mem_flatMap]
    exact ⟨(pin, d), hmem, by simp [hc, Option.toList]⟩

/-- C2 witness: on the remote board with pin 18 assigned as PWM, the
zero-duty reset for pin 18 is attempted even under a failure pattern that
makes every backend call raise. -/
theorem C2_witness :
    BackendCall.pigpioSetPWMDutycycle 18 0 ∈
      emergency_stop exRemotePwm (fun _ => true) :=
  (C2_emergency_stop_best_effort exRemotePwm (fun _ => true)).2.1
    18 PinMode.OUTPUT (by decide) (by decide) (by decide)
    (BackendCall.pigpioSetPWMDutycycle 18 0) (by decide)

/-! ## C3: connection state machine -/

/-- C3: after `connect` returns success the state is CONNECTED; after it
returns failure the state is ERROR (every failure path, including the
outer exception handler, sets it — never a silent stay in a prior state);
and `disconnect` ends in DISCONNECTED unconditionally, for every prior
state and every injected failure pattern of the per-pin resets and channel
release. -/
theorem C3_connection_states (st : BoardState) (env : ConnectEnv)
    (fails : BackendCall → Bool) :
    ((connect st env).1 = true →
        (connect st env).2.connState = BoardConnectionState.CONNECTED) ∧
    ((connect st env).1 = false →
        (connect st env).2.connState = BoardConnectionState.ERROR) ∧
    (disconnect st fails).2.connState = BoardConnectionState.DISCONNECTED := by
  refine ⟨?_, ?_, ?_⟩
  · intro h
    unfold connect at h ⊢
    cases hr : env.unexpectedRaise <;> simp [hr] at h ⊢
    cases hp : st.port <;> simp [hp] at h ⊢
    · cases hg : env.gpiozeroImportOk <;> simp [hg] at h ⊢
      cases hl : env.lgpioImportOk <;> simp [hl] at h ⊢
    · cases hi : env.pigpioImportOk <;> simp [hi] at h ⊢
      cases hc : env.pigpioConnected <;> simp [hc] at h ⊢
  · intro h
    unfold connect at h ⊢
    cases hr : env.unexpectedRaise <;> simp [hr] at h ⊢
    cases hp : st.port <;> simp [hp] at h ⊢
    · cases hg : env.gpiozeroImportOk <;> simp [hg] at h ⊢
      cases hl : env.lgpioImportOk <;> simp [hl] at h ⊢
    · cases hi : env.pigpioImportOk <;> simp [hi] at h ⊢
      cases hc : env.pigpioConnected <;> simp [hc] at h ⊢
  · cases hb : (st.pigpioAvailable && st.hasPigpioPi) <;>
      simp [disconnect, hb]

/-- C3 witness: a successful local connect lands in CONNECTED, a failed
remote connect lands in ERROR, and disconnecting a connected remote board
under an all-failing injection still lands in DISCONNECTED. -/
theorem C3_witness :
    (connect exLocalEmpty ⟨true, true, true, true, false⟩).2.connState =
      BoardConnectionState.CONNECTED ∧
    (connect exDisconnected ⟨true, false, true, true, false⟩).2.connState =
      BoardConnectionState.ERROR ∧
    (disconnect exRemotePwm (fun _ => true)).2.connState =
      BoardConnectionState.DISCONNECTED := by
  refine ⟨?_, ?_, ?_⟩
  · exact (C3_connection_states exLocalEmpty ⟨true, true, true, true, false⟩
      (fun _ => false)).1 (by decide)
  · exact (C3_connection_states exDisconnected ⟨true, false, true, true, false⟩
      (fun _ => false)).2.1 (by decide)
  · exact (C3_connection_states exRemotePwm ⟨true, true, true, true, false⟩
      (fun _ => true)).2.2

/-! ## C4: no I/O outside CONNECTED -/

/-- C4: whenever the connection state is not CONNECTED, each of
`write_digital`, `read_digital`, `write_analog` and `write_servo` fails
with the not-connected error, issues no backend call (empty trace) and
returns no successor state — the pin bookkeeping is untouched. -/
theorem C4_reject_when_not_connected (st : BoardState) (pin : Nat) (v : Bool)
    (av ang : Int) (hw : Bool)
    (h : st.connState ≠ BoardConnectionState.CONNECTED) :
    write_digital st pin v = ([], .error .notConnected) ∧
    read_digital st pin hw = ([], .error .notConnected) ∧
    write_analog st pin av = ([], .error .notConnected) ∧
    write_servo st pin ang = ([], .error .notConnected) := by
  have hc : is_connected st = false := by
    simp [is_connected, h]
  refine ⟨?_, ?_, ?_, ?_⟩ <;>
    simp [write_digital, read_digital, write_analog, write_servo, hc]

/-- C4 witness: on the freshly constructed (disconnected) board every one of
the four operations is rejected with the not-connected error and an empty
trace. -/
theorem C4_witness :
    write_digital exDisconnected 13 true = ([], .error .notConnected) ∧
    read_digital exDisconnected 13 false = ([], .error .notConnected) ∧
    write_analog exDisconnected 18 128 = ([], .error .notConnected) ∧
    write_servo exDisconnected 12 90 = ([], .error .notConnected) :=
  C4_reject_when_not_connected exDisconnected 13 true 128 90 false (by decide)

/-! ## C5: NotConfigured rejection -/

/-- C5, counterexample: on a connected remote (pigpio) board with no pin
configured at all, `write_digital` is not rejected — it succeeds and issues
the backend write, contrary to the claim that unconfigured writes are
rejected with NotConfigured in both backend branches (only the gpiozero
branch checks). -/
theorem C5_counterexample :
    exRemote.pinModes = [] ∧ exRemote.devices = [] ∧
    (write_digital exRemote 4 true).1 = [BackendCall.pigpioWrite 4 1] ∧
    isOkB (write_digital exRemote 4 true).2 = true := by
  decide

/-- C5, amended: the NotConfigured rejection exists only in the local
(gpiozero) branch — there, a connected write to a pin with no device fails
with the not-configured error and issues no backend call, for all three
write operations; the remote (pigpio) branch performs no configuration
check and accepts every connected write. -/
theorem C5_not_configured_local_only (st : BoardState) (pin : Nat) (v : Bool)
    (av ang : Int)
    (hconn : is_connected st = true) :
    ((st.pigpioAvailable && st.hasPigpioPi) = false →
      st.devices.lookup pin = none →
      write_digital st pin v = ([], .error (.notConfigured pin)) ∧
      write_analog st pin av = ([], .error (.notConfigured pin)) ∧
      write_servo st pin ang = ([], .error (.notConfigured pin))) ∧
    (st.pigpioAvailable = true → st.hasPigpioPi = true →
      isOkB (write_digital st pin v).2 = true ∧
      isOkB (write_analog st pin av).2 = true ∧
      isOkB (write_servo st pin ang).2 = true) := by
  constructor
  · intro hb hdev
    refine ⟨?_, ?_, ?_⟩ <;>
      simp [write_digital, write_analog, write_servo, hconn, hb, hdev]
  · intro hpa hpi
    have hb : (st.pigpioAvailable && st.hasPigpioPi) = true := by simp [hpa, hpi]
    refine ⟨?_, ?_, ?_⟩ <;>
      simp [write_digital, write_analog, write_servo, isOkB, hconn, hb]

/-- C5 witness: on the connected local board with no devices, a digital
write to pin 5 is rejected with the not-configured error; on the connected
remote board the same unconfigured write succeeds. -/
theorem C5_witness :
    write_digital exLocalEmpty 5 true = ([], .error (.notConfigured 5)) ∧
    isOkB (write_digital exRemote 5 true).2 = true := by
  constructor
  · exact ((C5_not_configured_local_only exLocalEmpty 5 true 0 0
      (by decide)).1 (by decide) (by decide)).1
  · exact ((C5_not_configured_local_only exRemote 5 true 0 0
      (by decide)).2 (by decide) (by decide)).1

/-! ## C6: servo angle mapping -/

theorem clampAngle_eq_self {a : Int} (h0 : 0 ≤ a) (h1 : a ≤ 180) :
    clampAngle a = a := by
  unfold clampAngle
  omega

theorem servo_value_90 : servo_value 90 = 0 := by
  rw [servo_value, clampAngle_eq_self (by norm_num) (by norm_num)]
  have h : ((90 : ℤ) : ℚ) / 90 - 1 = 0 := by norm_num
  rw [h, min_eq_right (by norm_num : (0:ℚ) ≤ 1),
      max_eq_right (by norm_num : (-1:ℚ) ≤ 0)]

theorem servo_value_0 : servo_value 0 = -1 := by
  rw [servo_value, clampAngle_eq_self (by norm_num) (by norm_num)]
  have h : ((0 : ℤ) : ℚ) / 90 - 1 = -1 := by norm_num
  rw [h, min_eq_right (by norm_num : (-1:ℚ) ≤ 1), max_self]

theorem servo_value_180 : servo_value 180 = 1 := by
  rw [servo_value, clampAngle_eq_self (by norm_num) (by norm_num)]
  have h : ((180 : ℤ) : ℚ) / 90 - 1 = 1 := by norm_num
  rw [h, min_self, max_eq_right (by norm_num : (-1:ℚ) ≤ 1)]

/-- C6: `write_servo` clamps every integer angle to [0, 180]; angle 90 maps
to pulse width 1500 µs on the pigpio branch and to value 0 on the gpiozero
±1.0-range branch; and both linear mappings preserve the physical
endpoints — 0° to the minimum (500 µs / -1.0) and 180° to the maximum
(2500 µs / +1.0). -/
theorem C6_servo_mapping :
    (∀ a : Int, 0 ≤ clampAngle a ∧ clampAngle a ≤ 180) ∧
    (write_servo exRemote 12 90).1 = [.pigpioSetServoPulsewidth 12 1500] ∧
    (write_servo exLocal 12 90).1 = [.deviceSetValue 12 0] ∧
    (write_servo exRemote 12 0).1 = [.pigpioSetServoPulsewidth 12 500] ∧
    (write_servo exLocal 12 0).1 = [.deviceSetValue 12 (-1)] ∧
    (write_servo exRemote 12 180).1 = [.pigpioSetServoPulsewidth 12 2500] ∧
    (write_servo exLocal 12 180).1 = [.deviceSetValue 12 1] := by
  have hc : is_connected exLocal = true := by decide
  have hb : (exLocal.pigpioAvailable && exLocal.hasPigpioPi) = false := by decide
  have hd : exLocal.devices.lookup 12 = some Device.servo := by decide
  refine ⟨?_, ?_, ?_, ?_, ?_, ?_, ?_⟩
  · intro a
    exact ⟨le_max_left 0 _, max_le (by norm_num) (min_le_left 180 a)⟩
  · decide
  · simp [write_servo, hc, hb, hd, servo_value_90]
  · decide
  · simp [write_servo, hc, hb, hd, servo_value_0]
  · decide
  · simp [write_servo, hc, hb, hd, servo_value_180]

/-! ## C7: PWM value mapping -/

theorem clamp255_eq_self {v : Int} (h0 : 0 ≤ v) (h1 : v ≤ 255) :
    clamp255 v = v := by
  unfold clamp255
  omega

/-- C7: `write_analog` clamps every integer value to [0, 255] before the
backend call; the backend-native duty cycle is the clamped value itself on
the pigpio (0-255 native) branch and the clamped value divided by 255 on
the gpiozero (0.0-1.0) branch; in particular writing 128 yields duty 128
remotely and 128/255 locally. -/
theorem C7_pwm_mapping (st : BoardState) (pin : Nat) (v : Int) (d : Device) :
    (0 ≤ clamp255 v ∧ clamp255 v ≤ 255) ∧
    (is_connected st = true → st.pigpioAvailable = true → st.hasPigpioPi = true →
      (write_analog st pin v).1 = [.pigpioSetPWMDutycycle pin (clamp255 v)]) ∧
    (is_connected st = true → (st.pigpioAvailable && st.hasPigpioPi) = false →
      st.devices.lookup pin = some d →
      (write_analog st pin v).1 = [.deviceSetValue pin ((clamp255 v : ℚ) / 255)]) ∧
    (write_analog exRemote 18 128).1 = [.pigpioSetPWMDutycycle 18 128] ∧
    (write_analog exLocal 18 128).1 = [.deviceSetValue 18 (128 / 255)] := by
  refine ⟨?_, ?_, ?_, ?_, ?_⟩
  · exact ⟨le_max_left 0 _, max_le (by norm_num) (min_le_left 255 v)⟩
  · intro hconn hpa hpi
    have hb : (st.pigpioAvailable && st.hasPigpioPi) = true := by simp [hpa, hpi]
    simp [write_analog, hconn, hb]
  · intro hconn hb hdev
    simp [write_analog, hconn, hb, hdev]
  · decide
  · have hc : is_connected exLocal = true := by decide
    have hb : (exLocal.pigpioAvailable && exLocal.hasPigpioPi) = false := by decide
    have hd : exLocal.devices.lookup 18 = some Device.pwmOutput := by decide
    simp [write_analog, hc, hb, hd,
          clamp255_eq_self (by norm_num : (0:ℤ) ≤ 128) (by norm_num : (128:ℤ) ≤ 255)]

/-- C7 witness: the two branch statements applied concretely — duty 200 on
the remote board for a write of 200, and duty 200/255 on the local board. -/
theorem C7_witness :
    (write_analog exRemote 18 200).1 = [.pigpioSetPWMDutycycle 18 200] ∧
    (write_analog exLocal 18 200).1 = [.deviceSetValue 18 (200 / 255)] := by
  constructor
  · have h := (C7_pwm_mapping exRemote 18 200 Device.pwmOutput).2.1
      (by decide) (by decide) (by decide)
    rw [h, clamp255_eq_self (by norm_num) (by norm_num)]
  · have h := (C7_pwm_mapping exLocal 18 200 Device.pwmOutput).2.2.1
      (by decide) (by decide) (by decide)
    rw [h, clamp255_eq_self (by norm_num) (by norm_num)]
    norm_num

/-! ## C8: serialization round-trip -/

/-- C8: `from_dict (to_dict board)` yields a board whose serialized
configuration reproduces the original `port`, `auto_reconnect` and
`board_type` fields, and whose id equals the original id whenever the
serialized record contains one (it always does: `to_dict` emits it). -/
theorem C8_round_trip (st : BoardState) (freshId : String) :
    (to_dict (from_dict (to_dict st) freshId)).port = (to_dict st).port ∧
    (to_dict (from_dict (to_dict st) freshId)).auto_reconnect =
      (to_dict st).auto_reconnect ∧
    (to_dict (from_dict (to_dict st) freshId)).board_type =
      (to_dict st).board_type ∧
    (∀ i, (to_dict st).id = some i → (from_dict (to_dict st) freshId).id = i) := by
  refine ⟨rfl, rfl, rfl, ?_⟩
  intro i h
  simp [to_dict] at h
  simp [from_dict, to_dict, initBoard, h]

/-- C8 witness: the round-trip of the concrete remote board reproduces its
port, auto-reconnect flag, board type, and id. -/
theorem C8_witness :
    (to_dict (from_dict (to_dict exRemote) "fresh-id")).port =
      (to_dict exRemote).port ∧
    (from_dict (to_dict exRemote) "fresh-id").id = "board-1" :=
  ⟨(C8_round_trip exRemote "fresh-id").1,
   (C8_round_trip exRemote "fresh-id").2.2.2 "board-1" rfl⟩

/-! ## C9: mirrored last value after a digital write -/

/-- C9: on a connected board, writing a digital value to a pin that reaches
the backend (always, on the pigpio branch; device present, on the gpiozero
branch) succeeds and records exactly that value as the pin's mirrored last
value. -/
theorem C9_digital_mirror (st : BoardState) (pin : Nat) (v : Bool)
    (hconn : is_connected st = true)
    (hdev : st.pigpioAvailable = true ∧ st.hasPigpioPi = true ∨
            (st.devices.lookup pin).isSome = true) :
    ∃ tr st', write_digital st pin v = (tr, .ok st') ∧
      st'.pinValues.lookup pin = some (.b v) := by
  by_cases hb : (st.pigpioAvailable && st.hasPigpioPi) = true
  · refine ⟨[.pigpioWrite pin (if v then 1 else 0)],
      { st with pinValues := alSet st.pinValues pin (.b v) }, ?_,
      lookup_alSet _ _ _⟩
    simp [write_digital, hconn, hb]
  · have hd : (st.devices.lookup pin).isSome = true := by
      rcases hdev with ⟨hpa, hpi⟩ | hd
      · exact absurd (by simp [hpa, hpi]) hb
      · exact hd
    obtain ⟨d, hd⟩ := Option.isSome_iff_exists.mp hd
    refine ⟨[if v then .deviceOn pin else .deviceOff pin],
      { st with pinValues := alSet st.pinValues pin (.b v) }, ?_,
      lookup_alSet _ _ _⟩
    simp [write_digital, hconn, hb, hd]

/-- C9 witness: on the connected local board with pin 13 a digital output,
writing `true` mirrors `true` and writing `false` mirrors `false`. -/
theorem C9_witness :
    (∃ tr st', write_digital exLocal 13 true = (tr, .ok st') ∧
      st'.pinValues.lookup 13 = some (.b true)) ∧
    ∃ tr st', write_digital exLocal 13 false = (tr, .ok st') ∧
      st'.pinValues.lookup 13 = some (.b false) :=
  ⟨C9_digital_mirror exLocal 13 true (by decide) (Or.inr (by decide)),
   C9_digital_mirror exLocal 13 false (by decide) (Or.inr (by decide))⟩

/-! ## C10: frame writer accounting -/

theorem fw_accounting (ops : List FWOp) (st : FWState) :
    (fwRun st ops).frames_written + (fwRun st ops).frames_dropped +
      (fwRun st ops).queue.length + fwLostCount st ops
    = st.frames_written + st.frames_dropped + st.queue.length +
      fwEnqCount ops := by
  induction ops generalizing st with
  | nil => simp [fwRun, fwLostCount, fwEnqCount]
  | cons op rest ih =>
      cases op with
      | enq f =>
          have h := ih (fwEnqueue st f).2
          simp only [fwRun, fwLostCount, fwEnqCount]
          by_cases hfull :
              0 < st.max_queue_size ∧ st.max_queue_size ≤ st.queue.length
          · simp only [fwEnqueue, if_pos hfull] at h ⊢
            omega
          · simp only [fwEnqueue, if_neg hfull, List.length_append,
              List.length_cons, List.length_nil] at h ⊢
            omega
      | proc b =>
          have h := ih (fwProcessOne st b)
          simp only [fwRun, fwLostCount, fwEnqCount]
          cases hq : st.queue with
          | nil =>
              simp [fwProcessOne, hq] at h ⊢
              omega
          | cons x rest2 =>
              cases b <;> simp [fwProcessOne, hq] at h ⊢ <;> omega

/-- C10, amended: each `enqueue` call returns true iff the frame was added
to the queue (otherwise the dropped counter is incremented by exactly one
and the queue is unchanged); for every interleaved run,
`frames_written + frames_dropped + queue depth + number of frames whose
write raised an exception` accounts for every enqueued frame; consequently
the claim's equality `frames_written + frames_dropped = n` after a full
drain holds exactly when no write raised — a frame whose `write` raises is
dequeued but counted by neither counter. -/
theorem C10_enqueue_and_accounting (st : FWState) (f : Nat) (ops : List FWOp) :
    ((fwEnqueue st f).1 = true →
      (fwEnqueue st f).2.queue = st.queue ++ [f] ∧
      (fwEnqueue st f).2.frames_dropped = st.frames_dropped) ∧
    ((fwEnqueue st f).1 = false →
      (fwEnqueue st f).2.queue = st.queue ∧
      (fwEnqueue st f).2.frames_dropped = st.frames_dropped + 1) ∧
    ((fwRun st ops).frames_written + (fwRun st ops).frames_dropped +
        (fwRun st ops).queue.length + fwLostCount st ops
      = st.frames_written + st.frames_dropped + st.queue.length +
        fwEnqCount ops) ∧
    (fwLostCount st ops = 0 → (fwRun st ops).queue = [] →
      (fwRun st ops).frames_written + (fwRun st ops).frames_dropped
        = st.frames_written + st.frames_dropped + st.queue.length +
          fwEnqCount ops) := by
  refine ⟨?_, ?_, fw_accounting ops st, ?_⟩
  · intro h
    by_cases hfull :
        0 < st.max_queue_size ∧ st.max_queue_size ≤ st.queue.length
    · simp [fwEnqueue, if_pos hfull] at h
    · simp [fwEnqueue, if_neg hfull]
  · intro h
    by_cases hfull :
        0 < st.max_queue_size ∧ st.max_queue_size ≤ st.queue.length
    · simp [fwEnqueue, if_pos hfull]
    · simp [fwEnqueue, if_neg hfull] at h
  · intro hlost hq
    have h := fw_accounting ops st
    rw [hlost, hq] at h
    simpa using h

/-- C10, counterexample: with a bounded queue of 10, a single frame is
enqueued successfully (`enqueue` returns true, so n = 1), the writer thread
dequeues it and its `write` raises; the run completes with an empty queue
yet `frames_written + frames_dropped = 0 ≠ 1` — the frame is lost and
uncounted, contrary to the claim. -/
theorem C10_counterexample :
    (fwEnqueue fwInit 7).1 = true ∧
    fwEnqCount [FWOp.enq 7, FWOp.proc true] = 1 ∧
    (fwRun fwInit [FWOp.enq 7, FWOp.proc true]).queue = [] ∧
    (fwRun fwInit [FWOp.enq 7, FWOp.proc true]).frames_written +
      (fwRun fwInit [FWOp.enq 7, FWOp.proc true]).frames_dropped = 0 := by
  decide

/-- C10 witness: a successful enqueue appends to the queue without touching
the dropped counter, and a failure-free fully drained run of two enqueues
ends with `frames_written + frames_dropped = 2`. -/
theorem C10_witness :
    ((fwEnqueue fwInit 3).2.queue = fwInit.queue ++ [3] ∧
     (fwEnqueue fwInit 3).2.frames_dropped = fwInit.frames_dropped) ∧
    (fwRun fwInit [FWOp.enq 1, FWOp.enq 2, FWOp.proc false, FWOp.proc false]).frames_written +
      (fwRun fwInit [FWOp.enq 1, FWOp.enq 2, FWOp.proc false, FWOp.proc false]).frames_dropped
      = fwInit.frames_written + fwInit.frames_dropped + fwInit.queue.length +
        fwEnqCount [FWOp.enq 1, FWOp.enq 2, FWOp.proc false, FWOp.proc false] :=
  ⟨(C10_enqueue_and_accounting fwInit 3 []).1 (by decide),
   (C10_enqueue_and_accounting fwInit 0
      [FWOp.enq 1, FWOp.enq 2, FWOp.proc false, FWOp.proc false]).2.2.2
      (by decide) (by decide)⟩

end Glider
